import Mathlib

/-!
Verification of the crop-allocation formulation layer of the
Crop-optimizer repository.  The two scripts
`streamlit_crop_optimizer.py` (land-only, single-field variant) and
`streamlit_crop_optimizer_advanced.py` (field-aware variant) are
shallowly embedded below: numeric values are modelled as rationals,
the PuLP objective and constraint rows as explicit lists of
(variable-index, coefficient) pairs, and the solver as an opaque
function parameter whose outcome drives the reporting branch exactly
as the scripts' `if model.status == 1` does.
-/

/-- Per-crop parameters of the field-aware variant
(`yield_per_ha`, `price_per_ton`, `fertilizer_per_ha`, `water_per_ha`,
`labor_per_ha`, `equipment_per_ha` in
`streamlit_crop_optimizer_advanced.py`). -/
structure CropParams where
  yieldPerHa : ℚ
  pricePerTon : ℚ
  fertilizerPerHa : ℚ
  waterPerHa : ℚ
  laborPerHa : ℚ
  equipmentPerHa : ℚ
deriving DecidableEq

/-- Per-field parameters of the field-aware variant
(`field_area`, `field_water`, `rainfall_index`). -/
structure FieldParams where
  area : ℚ
  water : ℚ
  rainfallIndex : ℚ
deriving DecidableEq

/-- Python's `round(x, 2)` as used at line 98 of the field-aware script,
modelled as round-half-up to two decimal places (the difference with
Python's bankers rounding only shows at exact ties, which no statement
below depends on). -/
def round2 (q : ℚ) : ℚ := (⌊q * 100 + 1 / 2⌋ : ℤ) / 100

/-- Python's `sum` over a list of possibly-missing values: the sum of the
values when all are present, and a failure (`none`, modelling the
`TypeError` raised on a `None` operand) when any is missing. -/
def optionSum : List (Option ℚ) → Option ℚ
  | [] => some 0
  | o :: rest => do
      let x ← o
      let y ← optionSum rest
      pure (x + y)

/-- The three sidebar weights of the field-aware variant:
`alpha` (water weight), `beta` (fertilizer weight), `gamma` (profit weight). -/
structure Weights where
  alpha : ℚ
  beta : ℚ
  gamma : ℚ
deriving DecidableEq

/-- `fertilizer_cost = 25` (₹/kg), a hard-coded constant of
`streamlit_crop_optimizer_advanced.py` line 23. -/
def fertilizer_cost : ℚ := 25

/-- `profit_cost[(field, crop)] = -(Y * P) - (F * fertilizer_cost)`
(advanced script, line 72).  It only depends on the crop. -/
def profit_cost (c : CropParams) : ℚ :=
  -(c.yieldPerHa * c.pricePerTon) - (c.fertilizerPerHa * fertilizer_cost)

/-- `sustain_cost[(field, crop)] = beta * (F * fertilizer_cost) + alpha * (W * (1 - RI))`
(advanced script, line 73). -/
def sustain_cost (w : Weights) (c : CropParams) (f : FieldParams) : ℚ :=
  w.beta * (c.fertilizerPerHa * fertilizer_cost) +
    w.alpha * (c.waterPerHa * (1 - f.rainfallIndex))

/-- `hybrid_cost[(field, crop)] = gamma * profit_cost + sustain_cost`
(advanced script, line 74). -/
def hybrid_cost (w : Weights) (c : CropParams) (f : FieldParams) : ℚ :=
  w.gamma * profit_cost c + sustain_cost w c f

/-- Modelled from the spec: the penalty-subtracted profit score of §4.2,
`w_profit · (yield × pricePerUnit) − [w_fertilizer · (fertilizerPerArea ×
fertilizerUnitCost) + w_water · (waterPerArea × (1 − rainfallIndex))]`.
This formula does not occur in the source; it is written here from the
spec's words so that it can be compared with the source's `hybrid_cost`. -/
def penaltySubtractedScore (wProfit wFert wWater : ℚ) (c : CropParams) (ri : ℚ) : ℚ :=
  wProfit * (c.yieldPerHa * c.pricePerTon) -
    (wFert * (c.fertilizerPerHa * fertilizer_cost) +
      wWater * (c.waterPerHa * (1 - ri)))

/-- One PuLP `≤` constraint row: a name, the left-hand side as a list of
(variable index, coefficient) terms, and the right-hand bound. -/
structure LinCon (ι : Type) where
  name : String
  terms : List (ι × ℚ)
  bound : ℚ

/-- Value of a constraint's left-hand side at an assignment `x`. -/
def lhsValue (con : LinCon ι) (x : ι → ℚ) : ℚ :=
  (con.terms.map fun t => t.2 * x t.1).sum

/-- The assignment `x` satisfies the `≤` constraint. -/
def LinCon.sat (con : LinCon ι) (x : ι → ℚ) : Prop :=
  lhsValue con x ≤ con.bound

instance (con : LinCon ι) (x : ι → ℚ) : Decidable (con.sat x) := by
  unfold LinCon.sat; infer_instance

/-- Variable indices referenced across a list of constraint rows. -/
def conVars (cons : List (LinCon ι)) : List ι :=
  cons.flatMap fun con => con.terms.map Prod.fst

/-- The hard-coded crop list of the field-aware script (line 14). -/
def cropsAdv : List String := ["Wheat", "Rice", "Maize", "Soyabean", "Cotton"]

/-- The hard-coded field list of the field-aware script (line 15). -/
def fieldsAdv : List String := ["Field A", "Field B", "Field C"]

/-- Objective of the field-aware script (lines 77-80): one term
`-hybrid_cost[(field, crop)] * land[(field, crop)]` per (field, crop) pair,
maximized. -/
def buildObjectiveAdv (fields crops : List String) (w : Weights)
    (cp : String → CropParams) (fp : String → FieldParams) :
    List ((String × String) × ℚ) :=
  fields.flatMap fun f => crops.map fun c => ((f, c), -(hybrid_cost w (cp c) (fp f)))

/-- Constraint rows of the field-aware script (lines 83-88): per field an
area row (`Σ_c land ≤ field_area`) and a water row
(`Σ_c land·water_per_ha ≤ field_water`), then a global labor row and a
global equipment row. -/
def buildConstraintsAdv (fields crops : List String)
    (fieldArea fieldWater : String → ℚ) (cp : String → CropParams)
    (totalLabor totalEquipment : ℚ) : List (LinCon (String × String)) :=
  (fields.flatMap fun f =>
    [⟨"Area_" ++ f, crops.map fun c => ((f, c), 1), fieldArea f⟩,
     ⟨"Water_" ++ f, crops.map fun c => ((f, c), (cp c).waterPerHa), fieldWater f⟩])
  ++ [⟨"Labor", fields.flatMap fun f => crops.map fun c => ((f, c), (cp c).laborPerHa),
        totalLabor⟩,
      ⟨"Equipment", fields.flatMap fun f => crops.map fun c => ((f, c), (cp c).equipmentPerHa),
        totalEquipment⟩]

/-- Entry of the result table of the field-aware script, line 98:
`round(land[field, crop].varValue or 0, 2)` — a missing solver value is
replaced by `0` before rounding. -/
def tableEntry (vals : String × String → Option ℚ) (f c : String) : ℚ :=
  round2 ((vals (f, c)).getD 0)

/-- Entry of the heatmap data matrix of the field-aware script, line 107:
`land[field, crop].varValue or 0`. -/
def heatEntry (vals : String × String → Option ℚ) (f c : String) : ℚ :=
  (vals (f, c)).getD 0

/-- `total_cost` of the field-aware script, line 102:
`sum(hybrid_cost[(field, crop)] * land[field, crop].varValue ...)` over all
(field, crop) pairs — the raw `varValue` is used with no `or 0`
substitution and no rounding, so a missing value makes the sum fail. -/
def totalCostOpt (fields crops : List String) (w : Weights)
    (cp : String → CropParams) (fp : String → FieldParams)
    (vals : String × String → Option ℚ) : Option ℚ :=
  optionSum (fields.flatMap fun f => crops.map fun c =>
    (vals (f, c)).map fun v => hybrid_cost w (cp c) (fp f) * v)

/-- Modelled from the spec: the total hybrid cost recomputed "from the
*rounded* allocation using the same per-unit formulas", as §4.4 of the
spec prescribes.  This recomputation does not occur in the source (the
source sums the raw values); it is written here from the spec's words to
be compared with the source's `totalCostOpt`. -/
def totalCostFromRounded (fields crops : List String) (w : Weights)
    (cp : String → CropParams) (fp : String → FieldParams)
    (vals : String × String → ℚ) : ℚ :=
  (fields.flatMap fun f => crops.map fun c =>
    hybrid_cost w (cp c) (fp f) * round2 (vals (f, c))).sum

/-- Per-crop parameters of the land-only variant
(`profit_per_ha`, `water_per_ha`, `labor_per_ha`, `equipment_per_ha`,
`price_fluctuation`, `weather_factor`, `sustainability_score` in
`streamlit_crop_optimizer.py`). -/
structure SimpleCrop where
  profitPerHa : ℚ
  waterPerHa : ℚ
  laborPerHa : ℚ
  equipmentPerHa : ℚ
  priceFluctuation : ℚ
  weatherFactor : ℚ
  sustainabilityScore : ℚ
deriving DecidableEq

/-- `adjusted_profit[crop] = profit_per_ha * price_fluctuation * weather_factor`
(land-only script, lines 56-59). -/
def adjusted_profit (c : SimpleCrop) : ℚ :=
  c.profitPerHa * c.priceFluctuation * c.weatherFactor

/-- Objective of the land-only script (lines 62-66): per selected crop the
terms `alpha * adjusted_profit * land + beta * sustainability_score * land`
merge into one coefficient on that crop's variable. -/
def buildObjectiveSimple (crops : List String) (alpha beta : ℚ)
    (cp : String → SimpleCrop) : List (String × ℚ) :=
  crops.map fun c =>
    (c, alpha * adjusted_profit (cp c) + beta * (cp c).sustainabilityScore)

/-- Constraint rows of the land-only script (lines 69-72): land, water,
labor and equipment budgets. -/
def buildConstraintsSimple (crops : List String) (cp : String → SimpleCrop)
    (totalLand totalWater totalLabor totalEquipment : ℚ) : List (LinCon String) :=
  [⟨"Land_Constraint", crops.map fun c => (c, 1), totalLand⟩,
   ⟨"Water_Constraint", crops.map fun c => (c, (cp c).waterPerHa), totalWater⟩,
   ⟨"Labor_Constraint", crops.map fun c => (c, (cp c).laborPerHa), totalLabor⟩,
   ⟨"Equipment_Constraint", crops.map fun c => (c, (cp c).equipmentPerHa), totalEquipment⟩]

/-- Outcome of a PuLP `model.solve()` call, indexed by the variable type.
The `optimal` case carries the per-variable `varValue` map, which PuLP may
leave as `None` for a variable. -/
inductive SolveOutcome (ι : Type) where
  | optimal (val : ι → Option ℚ)
  | notSolved
  | infeasible
  | unbounded
  | undefined

/-- PuLP's numeric status codes: Optimal 1, Not Solved 0, Infeasible -1,
Unbounded -2, Undefined -3.  Both scripts branch on `model.status == 1`. -/
def statusCode : SolveOutcome ι → Int
  | .optimal _ => 1
  | .notSolved => 0
  | .infeasible => -1
  | .unbounded => -2
  | .undefined => -3

/-- What the land-only script renders after a run: the success page
(allocation dict and the two totals, lines 80-87) when `model.status == 1`,
otherwise the single generic error message of line 108. -/
inductive SimpleReport where
  | success (alloc : List (String × Option ℚ)) (totalProfit totalSustain : Option ℚ)
  | failure (msg : String)

/-- The land-only script's run (lines 49-108): build the objective and the
constraint rows, hand them to the solver, then branch on the status — with
no emptiness check or any other validation before the solve. -/
def runSimple
    (solver : List (String × ℚ) → List (LinCon String) → SolveOutcome String)
    (crops : List String) (alpha beta : ℚ) (cp : String → SimpleCrop)
    (totalLand totalWater totalLabor totalEquipment : ℚ) : SimpleReport :=
  let obj := buildObjectiveSimple crops alpha beta cp
  let cons := buildConstraintsSimple crops cp totalLand totalWater totalLabor totalEquipment
  match solver obj cons with
  | .optimal v =>
      .success (crops.map fun c => (c, v c))
        (optionSum (crops.map fun c => (v c).map fun x => adjusted_profit (cp c) * x))
        (optionSum (crops.map fun c => (v c).map fun x => (cp c).sustainabilityScore * x))
  | _ => .failure "Optimization failed. Please check your inputs."

/-- An assignment satisfying every constraint row of a list. -/
def feasiblePoint (cons : List (LinCon ι)) (x : ι → ℚ) : Prop :=
  ∀ con ∈ cons, con.sat x

lemma lhsValue_zero (con : LinCon ι) : lhsValue con (fun _ => 0) = 0 := by
  simp [lhsValue]

lemma optionSum_map_some (l : List ℚ) : optionSum (l.map some) = some l.sum := by
  induction l with
  | nil => rfl
  | cons a t ih => simp [optionSum, ih]

lemma optionSum_of_mem_none (l : List (Option ℚ)) (h : none ∈ l) :
    optionSum l = none := by
  induction l with
  | nil => cases h
  | cons a t ih =>
    rcases List.mem_cons.mp h with heq | hmem
    · rw [← heq]; rfl
    · cases a <;> simp [optionSum, ih hmem]

lemma round2_zero : round2 0 = 0 := by
  have h : (⌊(0 : ℚ) * 100 + 1 / 2⌋ : ℤ) = 0 := by norm_num [Int.floor_eq_iff]
  rw [round2, h]
  norm_num

lemma round2_one_third : round2 (1 / 3) = 33 / 100 := by
  have h : (⌊(1 / 3 : ℚ) * 100 + 1 / 2⌋ : ℤ) = 33 := by norm_num [Int.floor_eq_iff]
  rw [round2, h]
  norm_num

lemma mem_objVarsAdv (fields crops : List String) (w : Weights)
    (cp : String → CropParams) (fp : String → FieldParams) (p : String × String) :
    p ∈ (buildObjectiveAdv fields crops w cp fp).map Prod.fst ↔
      p.1 ∈ fields ∧ p.2 ∈ crops := by
  constructor
  · intro hp
    rcases List.mem_map.mp hp with ⟨t, ht, rfl⟩
    rcases List.mem_flatMap.mp ht with ⟨f, hf, ht2⟩
    rcases List.mem_map.mp ht2 with ⟨c, hc, rfl⟩
    exact ⟨hf, hc⟩
  · rintro ⟨h1, h2⟩
    exact List.mem_map.mpr ⟨((p.1, p.2), -(hybrid_cost w (cp p.2) (fp p.1))),
      List.mem_flatMap.mpr ⟨p.1, h1, List.mem_map.mpr ⟨p.2, h2, rfl⟩⟩, rfl⟩

lemma mem_conVarsAdv (fields crops : List String) (fa fw : String → ℚ)
    (cp : String → CropParams) (tlab te : ℚ) (p : String × String) :
    p ∈ conVars (buildConstraintsAdv fields crops fa fw cp tlab te) ↔
      p.1 ∈ fields ∧ p.2 ∈ crops := by
  constructor
  · intro hp
    rcases List.mem_flatMap.mp hp with ⟨con, hcon, hterm⟩
    rcases List.mem_map.mp hterm with ⟨t, ht, rfl⟩
    rcases List.mem_append.mp hcon with h | h
    · rcases List.mem_flatMap.mp h with ⟨f, hf, hcon2⟩
      rcases List.mem_cons.mp hcon2 with rfl | hcon3
      · rcases List.mem_map.mp ht with ⟨c, hc, rfl⟩
        exact ⟨hf, hc⟩
      · rcases List.mem_cons.mp hcon3 with rfl | hcon4
        · rcases List.mem_map.mp ht with ⟨c, hc, rfl⟩
          exact ⟨hf, hc⟩
        · cases hcon4
    · rcases List.mem_cons.mp h with rfl | h2
      · rcases List.mem_flatMap.mp ht with ⟨f, hf, ht2⟩
        rcases List.mem_map.mp ht2 with ⟨c, hc, rfl⟩
        exact ⟨hf, hc⟩
      · rcases List.mem_cons.mp h2 with rfl | h3
        · rcases List.mem_flatMap.mp ht with ⟨f, hf, ht2⟩
          rcases List.mem_map.mp ht2 with ⟨c, hc, rfl⟩
          exact ⟨hf, hc⟩
        · cases h3
  · rintro ⟨h1, h2⟩
    refine List.mem_flatMap.mpr
      ⟨⟨"Area_" ++ p.1, crops.map fun c => ((p.1, c), 1), fa p.1⟩, ?_, ?_⟩
    · exact List.mem_append.mpr (Or.inl
        (List.mem_flatMap.mpr ⟨p.1, h1, List.mem_cons_self _ _⟩))
    · exact List.mem_map.mpr ⟨((p.1, p.2), 1), List.mem_map.mpr ⟨p.2, h2, rfl⟩, rfl⟩

lemma mem_objVarsSimple (crops : List String) (alpha beta : ℚ)
    (cp : String → SimpleCrop) (c : String) :
    c ∈ (buildObjectiveSimple crops alpha beta cp).map Prod.fst ↔ c ∈ crops := by
  simp [buildObjectiveSimple, List.map_map, Function.comp]

lemma mem_conVarsSimple (crops : List String) (cp : String → SimpleCrop)
    (tl tw tlab te : ℚ) (c : String) :
    c ∈ conVars (buildConstraintsSimple crops cp tl tw tlab te) ↔ c ∈ crops := by
  simp [conVars, buildConstraintsSimple, List.map_map, Function.comp]

/-- Claim C1, counterexample: at yield 3 t/ha, price ₹3000/t, fertilizer
100 kg/ha (unit cost the script's fixed ₹25/kg), water 1 200 000 l/ha,
rainfall index 0.7 and fertilizer/water weights 0, the penalty-subtracted
score with profit weight 1 is 9000 while `-hybrid_cost` with `gamma = 1`
is 11500: the two formulas disagree whenever the fertilizer cost term is
non-zero. -/
theorem C1_counterexample :
    penaltySubtractedScore 1 0 0 ⟨3, 3000, 100, 1200000, 20, 8⟩ (7 / 10) ≠
      -(hybrid_cost ⟨0, 0, 1⟩ ⟨3, 3000, 100, 1200000, 20, 8⟩
        ⟨1000, 150000000, 7 / 10⟩) := by
  norm_num [penaltySubtractedScore, hybrid_cost, profit_cost, sustain_cost,
    fertilizer_cost]

/-- Claim C1 (amended): with profit weight `gamma = 1` the hybrid
cost-to-score value `-hybrid_cost` equals the penalty-subtracted score
(same fertilizer weight `beta` and water weight `alpha`) PLUS the
fertilizer cost term `fertilizerPerHa * fertilizer_cost`; the two
formulas agree exactly when that term is zero, because `profit_cost`
folds the fertilizer cost into the profit part. -/
theorem C1_hybrid_vs_penalty (w : Weights) (c : CropParams) (f : FieldParams)
    (h : w.gamma = 1) :
    -(hybrid_cost w c f) =
      penaltySubtractedScore 1 w.beta w.alpha c f.rainfallIndex +
        c.fertilizerPerHa * fertilizer_cost := by
  unfold hybrid_cost profit_cost sustain_cost penaltySubtractedScore
  rw [h]
  ring

/-- Claim C1, witness for `C1_hybrid_vs_penalty` at `gamma = 1` and the
default advanced-script inputs. -/
theorem C1_hybrid_vs_penalty_witness :
    (Weights.mk 0 0 1).gamma = 1 ∧
      -(hybrid_cost ⟨0, 0, 1⟩ ⟨3, 3000, 100, 1200000, 20, 8⟩
          ⟨1000, 150000000, 7 / 10⟩) =
        penaltySubtractedScore 1 0 0 ⟨3, 3000, 100, 1200000, 20, 8⟩ (7 / 10) +
          (100 : ℚ) * fertilizer_cost :=
  ⟨rfl, C1_hybrid_vs_penalty ⟨0, 0, 1⟩ ⟨3, 3000, 100, 1200000, 20, 8⟩
    ⟨1000, 150000000, 7 / 10⟩ rfl⟩

/-- Claim C6, counterexample: the source applies no clamp to the rainfall
index — with water weight 1, fertilizer weight 0, water requirement
1 l/ha and rainfall index 2, the factor `1 - RI` is negative and
`sustain_cost` evaluates to -1 < 0, so the water-scarcity term rewards
water use for an out-of-range rainfall index. -/
theorem C6_counterexample :
    sustain_cost ⟨1, 0, 0⟩ ⟨0, 0, 0, 1, 0, 0⟩ ⟨0, 0, 2⟩ < 0 := by
  norm_num [sustain_cost, fertilizer_cost]

/-- Claim C6 (amended): the objective builder performs no clamp — it uses
`waterPerHa * (1 - rainfallIndex)` directly — so non-negativity of the
water-scarcity term (and of the whole `sustain_cost`) holds only under
the slider-guaranteed bound `rainfallIndex ≤ 1` together with
non-negative weights and requirements. -/
theorem C6_no_clamp_nonneg (w : Weights) (c : CropParams) (f : FieldParams)
    (ha : 0 ≤ w.alpha) (hb : 0 ≤ w.beta) (hw : 0 ≤ c.waterPerHa)
    (hfr : 0 ≤ c.fertilizerPerHa) (hri : f.rainfallIndex ≤ 1) :
    0 ≤ w.alpha * (c.waterPerHa * (1 - f.rainfallIndex)) ∧
      0 ≤ sustain_cost w c f := by
  have h1 : 0 ≤ w.alpha * (c.waterPerHa * (1 - f.rainfallIndex)) :=
    mul_nonneg ha (mul_nonneg hw (by linarith))
  have h2 : 0 ≤ w.beta * (c.fertilizerPerHa * fertilizer_cost) :=
    mul_nonneg hb (mul_nonneg hfr (by norm_num [fertilizer_cost]))
  exact ⟨h1, by unfold sustain_cost; linarith⟩

/-- Claim C6, witness for `C6_no_clamp_nonneg` at the advanced script's
default inputs (rainfall index 0.7). -/
theorem C6_no_clamp_nonneg_witness :
    (0 : ℚ) ≤ 1 / 2 ∧ (0 : ℚ) ≤ 3 / 10 ∧ (0 : ℚ) ≤ 1200000 ∧
      (0 : ℚ) ≤ 100 ∧ (7 / 10 : ℚ) ≤ 1 ∧
      (0 ≤ (1 / 2 : ℚ) * ((1200000 : ℚ) * (1 - 7 / 10)) ∧
        0 ≤ sustain_cost ⟨1 / 2, 3 / 10, 7 / 10⟩ ⟨3, 3000, 100, 1200000, 20, 8⟩
          ⟨1000, 150000000, 7 / 10⟩) :=
  ⟨by norm_num, by norm_num, by norm_num, by norm_num, by norm_num,
    C6_no_clamp_nonneg ⟨1 / 2, 3 / 10, 7 / 10⟩ ⟨3, 3000, 100, 1200000, 20, 8⟩
      ⟨1000, 150000000, 7 / 10⟩ (by norm_num) (by norm_num) (by norm_num)
      (by norm_num) (by norm_num)⟩

/-- Claim C8: when a field's rainfall index is exactly 1, the
water-scarcity penalty term `alpha * (waterPerHa * (1 - rainfallIndex))`
is exactly zero for every crop and every water weight, so `sustain_cost`
collapses to its fertilizer part alone. -/
theorem C8_water_term_exact_zero (w : Weights) (c : CropParams)
    (f : FieldParams) (h : f.rainfallIndex = 1) :
    w.alpha * (c.waterPerHa * (1 - f.rainfallIndex)) = 0 ∧
      sustain_cost w c f = w.beta * (c.fertilizerPerHa * fertilizer_cost) := by
  rw [sustain_cost, h]
  constructor <;> ring

/-- Claim C8, witness for `C8_water_term_exact_zero` at rainfall index 1
and the default advanced-script inputs. -/
theorem C8_water_term_exact_zero_witness :
    (FieldParams.mk 1000 150000000 1).rainfallIndex = 1 ∧
      ((1 / 2 : ℚ) * ((1200000 : ℚ) * (1 - (FieldParams.mk 1000 150000000 1).rainfallIndex)) = 0 ∧
        sustain_cost ⟨1 / 2, 3 / 10, 7 / 10⟩ ⟨3, 3000, 100, 1200000, 20, 8⟩
            ⟨1000, 150000000, 1⟩ =
          (3 / 10 : ℚ) * ((100 : ℚ) * fertilizer_cost)) :=
  ⟨rfl, C8_water_term_exact_zero ⟨1 / 2, 3 / 10, 7 / 10⟩
    ⟨3, 3000, 100, 1200000, 20, 8⟩ ⟨1000, 150000000, 1⟩ rfl⟩

/-- Claim C9: in the land-only script a pair `(crop, q)` is a term of the
built objective, for a selected crop, exactly when `q` is
`alpha * (profit_per_ha * price_fluctuation * weather_factor) +
beta * sustainability_score` — the blend coefficient of the spec. -/
theorem C9_simple_objective_coeff (crops : List String) (alpha beta : ℚ)
    (cp : String → SimpleCrop) (c : String) (hc : c ∈ crops) (q : ℚ) :
    (c, q) ∈ buildObjectiveSimple crops alpha beta cp ↔
      q = alpha * ((cp c).profitPerHa * (cp c).priceFluctuation * (cp c).weatherFactor) +
        beta * (cp c).sustainabilityScore := by
  rw [buildObjectiveSimple, List.mem_map]
  constructor
  · rintro ⟨c', hc', heq⟩
    injection heq with h1 h2
    subst h1
    rw [← h2, adjusted_profit]
  · rintro rfl
    exact ⟨c, hc, rfl⟩

/-- Claim C9, witness for `C9_simple_objective_coeff` with one selected
crop, profit weight 1, sustainability weight 0. -/
theorem C9_simple_objective_coeff_witness :
    "Wheat" ∈ ["Wheat"] ∧
      (("Wheat", (30 : ℚ)) ∈
          buildObjectiveSimple ["Wheat"] 1 0 (fun _ => ⟨2, 1, 1, 1, 3, 5, 7⟩) ↔
        (30 : ℚ) = 1 * ((2 : ℚ) * 3 * 5) + 0 * 7) :=
  ⟨List.mem_cons_self _ _,
    C9_simple_objective_coeff ["Wheat"] 1 0 (fun _ => ⟨2, 1, 1, 1, 3, 5, 7⟩)
      "Wheat" (List.mem_cons_self _ _) 30⟩

/-- Claim C7: for every run with non-empty field and crop lists (and in
fact for every run), a variable index occurs in the built objective
exactly when it is referenced by some built constraint row — in the
field-aware variant every (field, crop) pair occurs on both sides, and in
the land-only variant every selected crop does. -/
theorem C7_objective_constraint_vars (fields crops : List String)
    (w : Weights) (cp : String → CropParams) (fp : String → FieldParams)
    (fa fw : String → ℚ) (tlab te : ℚ) (scp : String → SimpleCrop)
    (alpha beta tl tw tlab2 te2 : ℚ) (_hf : fields ≠ []) (_hc : crops ≠ []) :
    (∀ p : String × String,
      p ∈ (buildObjectiveAdv fields crops w cp fp).map Prod.fst ↔
        p ∈ conVars (buildConstraintsAdv fields crops fa fw cp tlab te)) ∧
    (∀ c : String,
      c ∈ (buildObjectiveSimple crops alpha beta scp).map Prod.fst ↔
        c ∈ conVars (buildConstraintsSimple crops scp tl tw tlab2 te2)) := by
  constructor
  · intro p
    rw [mem_objVarsAdv, mem_conVarsAdv]
  · intro c
    rw [mem_objVarsSimple, mem_conVarsSimple]

/-- Claim C7, witness for `C7_objective_constraint_vars` on a one-field,
one-crop run with the advanced script's default parameters. -/
theorem C7_objective_constraint_vars_witness :
    (["Field A"] : List String) ≠ [] ∧ (["Wheat"] : List String) ≠ [] ∧
      ((∀ p : String × String,
        p ∈ (buildObjectiveAdv ["Field A"] ["Wheat"] ⟨1 / 2, 3 / 10, 7 / 10⟩
            (fun _ => ⟨3, 3000, 100, 1200000, 20, 8⟩)
            (fun _ => ⟨1000, 150000000, 7 / 10⟩)).map Prod.fst ↔
          p ∈ conVars (buildConstraintsAdv ["Field A"] ["Wheat"]
            (fun _ => 1000) (fun _ => 150000000)
            (fun _ => ⟨3, 3000, 100, 1200000, 20, 8⟩) 90000 25000)) ∧
      (∀ c : String,
        c ∈ (buildObjectiveSimple ["Wheat"] (8 / 10) (2 / 10)
            (fun _ => ⟨9000, 1000, 25, 8, 1, 9 / 10, 3⟩)).map Prod.fst ↔
          c ∈ conVars (buildConstraintsSimple ["Wheat"]
            (fun _ => ⟨9000, 1000, 25, 8, 1, 9 / 10, 3⟩) 3000 4200000 75000 20000))) :=
  ⟨by simp, by simp,
    C7_objective_constraint_vars ["Field A"] ["Wheat"] ⟨1 / 2, 3 / 10, 7 / 10⟩
      (fun _ => ⟨3, 3000, 100, 1200000, 20, 8⟩) (fun _ => ⟨1000, 150000000, 7 / 10⟩)
      (fun _ => 1000) (fun _ => 150000000) 90000 25000
      (fun _ => ⟨9000, 1000, 25, 8, 1, 9 / 10, 3⟩) (8 / 10) (2 / 10)
      3000 4200000 75000 20000 (by simp) (by simp)⟩

/-- Claim C3, counterexample: with every field's water budget exactly 0
and every crop requiring 1 200 000 l/ha (> 0), the all-zero allocation —
which is non-negative — satisfies every constraint row the field-aware
script builds, so the constraint system is NOT infeasible and a correct
LP solver reports optimal (status 1), not infeasible. -/
theorem C3_counterexample :
    feasiblePoint (buildConstraintsAdv fieldsAdv cropsAdv (fun _ => 1000)
      (fun _ => 0) (fun _ => ⟨3, 3000, 100, 1200000, 20, 8⟩) 90000 25000)
      (fun _ => 0) := by
  intro con hcon
  rw [LinCon.sat, lhsValue_zero]
  simp only [buildConstraintsAdv, fieldsAdv, cropsAdv, List.mem_append,
    List.mem_flatMap, List.mem_cons, List.not_mem_nil, or_false] at hcon
  rcases hcon with ⟨f, _, rfl | rfl⟩ | rfl | rfl <;> norm_num

/-- Claim C3 (amended): with every water budget 0, positive per-crop water
requirements, and non-negative area, labor and equipment budgets, the
built constraint system is feasible — the all-zero allocation satisfies
every row — so the run ends with solver status optimal (the script's
status-1 success branch), not INFEASIBLE; water scarcity only forces the
allocation itself to zero. -/
theorem C3_zero_water_feasible (fields crops : List String)
    (fa fw : String → ℚ) (cp : String → CropParams) (tlab te : ℚ)
    (hfa : ∀ f, 0 ≤ fa f) (hfw : ∀ f, fw f = 0)
    (_hwpos : ∀ c, 0 < (cp c).waterPerHa) (htlab : 0 ≤ tlab) (hte : 0 ≤ te) :
    feasiblePoint (buildConstraintsAdv fields crops fa fw cp tlab te)
      (fun _ => 0) := by
  intro con hcon
  rw [LinCon.sat, lhsValue_zero]
  rcases List.mem_append.mp hcon with h | h
  · rcases List.mem_flatMap.mp h with ⟨f, _, hcon2⟩
    rcases List.mem_cons.mp hcon2 with rfl | hcon3
    · exact hfa f
    · rcases List.mem_cons.mp hcon3 with rfl | hcon4
      · exact le_of_eq (hfw f).symm
      · cases hcon4
  · rcases List.mem_cons.mp h with rfl | h2
    · exact htlab
    · rcases List.mem_cons.mp h2 with rfl | h3
      · exact hte
      · cases h3

/-- Claim C3, witness for `C3_zero_water_feasible` on the script's field
and crop lists with zero water budgets and the default positive water
requirement. -/
theorem C3_zero_water_feasible_witness :
    (∀ f : String, (0 : ℚ) ≤ (fun _ => (1000 : ℚ)) f) ∧
      (∀ f : String, (fun _ => (0 : ℚ)) f = 0) ∧
      (∀ c : String,
        (0 : ℚ) < ((fun _ => (⟨3, 3000, 100, 1200000, 20, 8⟩ : CropParams)) c).waterPerHa) ∧
      (0 : ℚ) ≤ 90000 ∧ (0 : ℚ) ≤ 25000 ∧
      feasiblePoint (buildConstraintsAdv fieldsAdv cropsAdv (fun _ => 1000)
        (fun _ => 0) (fun _ => ⟨3, 3000, 100, 1200000, 20, 8⟩) 90000 25000)
        (fun _ => 0) :=
  ⟨fun _ => by norm_num, fun _ => rfl, fun _ => by norm_num, by norm_num,
    by norm_num,
    C3_zero_water_feasible fieldsAdv cropsAdv (fun _ => 1000) (fun _ => 0)
      (fun _ => ⟨3, 3000, 100, 1200000, 20, 8⟩) 90000 25000
      (fun _ => by norm_num) (fun _ => rfl) (fun _ => by norm_num)
      (by norm_num) (by norm_num)⟩

/-- Claim C4, counterexample: the scripts branch only on
`model.status == 1`, so a solver answer of infeasible and one of
unbounded produce the very same report — the one generic failure message
— and cannot be distinguished by a caller. -/
theorem C4_counterexample :
    runSimple (fun _ _ => .infeasible) ["Wheat"] (8 / 10) (2 / 10)
        (fun _ => ⟨9000, 1000, 25, 8, 1, 9 / 10, 3⟩) 3000 4200000 75000 20000 =
      runSimple (fun _ _ => .unbounded) ["Wheat"] (8 / 10) (2 / 10)
        (fun _ => ⟨9000, 1000, 25, 8, 1, 9 / 10, 3⟩) 3000 4200000 75000 20000 :=
  rfl

/-- Claim C4 (amended): the adapter distinguishes only "optimal" from
"not optimal": every solver outcome with status other than 1 (infeasible,
unbounded, not solved, undefined) is mapped to the identical generic
failure report, so infeasibility, unboundedness and adapter faults are
all merged at the reporting interface. -/
theorem C4_non_optimal_merged (o : SolveOutcome String) (crops : List String)
    (alpha beta : ℚ) (cp : String → SimpleCrop) (tl tw tlab te : ℚ)
    (h : statusCode o ≠ 1) :
    runSimple (fun _ _ => o) crops alpha beta cp tl tw tlab te =
      .failure "Optimization failed. Please check your inputs." := by
  cases o with
  | optimal v => exact absurd rfl h
  | notSolved => rfl
  | infeasible => rfl
  | unbounded => rfl
  | undefined => rfl

/-- Claim C4, witness for `C4_non_optimal_merged` at the infeasible
outcome on a default single-crop run. -/
theorem C4_non_optimal_merged_witness :
    statusCode (SolveOutcome.infeasible : SolveOutcome String) ≠ 1 ∧
      runSimple (fun _ _ => .infeasible) ["Wheat"] (8 / 10) (2 / 10)
          (fun _ => ⟨9000, 1000, 25, 8, 1, 9 / 10, 3⟩) 3000 4200000 75000 20000 =
        .failure "Optimization failed. Please check your inputs." :=
  ⟨by decide, C4_non_optimal_merged .infeasible ["Wheat"] (8 / 10) (2 / 10)
    (fun _ => ⟨9000, 1000, 25, 8, 1, 9 / 10, 3⟩) 3000 4200000 75000 20000
    (by decide)⟩

/-- Claim C5, counterexample: run with an empty crop list. The script
performs no emptiness check: the objective and all constraint left-hand
sides come out empty, the vacuous program is submitted to the solver, and
a solver answering optimal yields a normal success report (empty
allocation, both totals 0) — no EmptyIndexSet error exists anywhere in
the pipeline. -/
theorem C5_counterexample :
    runSimple (fun _ _ => .optimal fun _ => some 0) [] (8 / 10) (2 / 10)
        (fun _ => ⟨9000, 1000, 25, 8, 1, 9 / 10, 3⟩) 3000 4200000 75000 20000 =
      .success [] (some 0) (some 0) :=
  rfl

/-- Claim C5 (amended): the builder never rejects an empty index set —
for zero crops it produces the empty objective and the four budget rows
with empty left-hand sides, and the run still hands this vacuous program
to the solver, whose outcome alone determines the report. -/
theorem C5_no_empty_check (alpha beta : ℚ) (cp : String → SimpleCrop)
    (tl tw tlab te : ℚ) :
    buildObjectiveSimple [] alpha beta cp = [] ∧
      buildConstraintsSimple [] cp tl tw tlab te =
        [⟨"Land_Constraint", [], tl⟩, ⟨"Water_Constraint", [], tw⟩,
         ⟨"Labor_Constraint", [], tlab⟩, ⟨"Equipment_Constraint", [], te⟩] ∧
      ∀ v : String → Option ℚ,
        runSimple (fun _ _ => .optimal v) [] alpha beta cp tl tw tlab te =
          .success [] (some 0) (some 0) :=
  ⟨rfl, rfl, fun _ => rfl⟩

lemma totalCostOpt_map_some (fields crops : List String) (w : Weights)
    (cp : String → CropParams) (fp : String → FieldParams)
    (rv : String × String → ℚ) :
    totalCostOpt fields crops w cp fp (fun p => some (rv p)) =
      some ((fields.flatMap fun f => crops.map fun c =>
        hybrid_cost w (cp c) (fp f) * rv (f, c)).sum) := by
  have e : (fields.flatMap fun f => crops.map fun c =>
        some (hybrid_cost w (cp c) (fp f) * rv (f, c))) =
      (fields.flatMap fun f => crops.map fun c =>
        hybrid_cost w (cp c) (fp f) * rv (f, c)).map some := by
    rw [List.map_flatMap]
    simp only [List.map_map]
    rfl
  simp only [totalCostOpt, Option.map_some']
  rw [e, optionSum_map_some]

/-- Claim C2, counterexample: one field, one crop, profit weight 1,
fertilizer 1 kg/ha (all else 0), hybrid cost -25 per hectare, solver
value 1/3 ha.  The reported total is the raw -25/3, while the per-unit
formula applied to the rounded allocation (0.33 ha) gives -8.25 — the
script does NOT recompute its aggregate from the rounded values shown in
the table. -/
theorem C2_counterexample :
    totalCostOpt ["Field A"] ["Wheat"] ⟨0, 0, 1⟩ (fun _ => ⟨0, 0, 1, 0, 0, 0⟩)
        (fun _ => ⟨1000, 0, 0⟩) (fun _ => some (1 / 3)) ≠
      some (totalCostFromRounded ["Field A"] ["Wheat"] ⟨0, 0, 1⟩
        (fun _ => ⟨0, 0, 1, 0, 0, 0⟩) (fun _ => ⟨1000, 0, 0⟩) (fun _ => 1 / 3)) := by
  rw [totalCostOpt_map_some]
  simp only [totalCostFromRounded, round2_one_third, List.flatMap_cons,
    List.flatMap_nil, List.map_cons, List.map_nil, List.append_nil,
    List.sum_cons, List.sum_nil, Option.some.injEq]
  norm_num [hybrid_cost, profit_cost, sustain_cost, fertilizer_cost]

/-- Claim C2 (amended): the aggregate total is computed from the RAW
solver values; it coincides with §4.4's recomputation from the rounded
allocation exactly when every per-variable value is already a fixed point
of the 2-decimal rounding. -/
theorem C2_totals_from_raw (fields crops : List String) (w : Weights)
    (cp : String → CropParams) (fp : String → FieldParams)
    (vals : String × String → ℚ) (h : ∀ p, round2 (vals p) = vals p) :
    totalCostOpt fields crops w cp fp (fun p => some (vals p)) =
      some (totalCostFromRounded fields crops w cp fp vals) := by
  rw [totalCostOpt_map_some]
  simp only [totalCostFromRounded, h]

/-- Claim C2, witness for `C2_totals_from_raw` with an all-zero solver
solution, which rounding leaves unchanged. -/
theorem C2_totals_from_raw_witness :
    (∀ p : String × String, round2 ((fun _ => (0 : ℚ)) p) = (fun _ => (0 : ℚ)) p) ∧
      totalCostOpt ["Field A"] ["Wheat"] ⟨1 / 2, 3 / 10, 7 / 10⟩
          (fun _ => ⟨3, 3000, 100, 1200000, 20, 8⟩)
          (fun _ => ⟨1000, 150000000, 7 / 10⟩) (fun p => some ((fun _ => (0 : ℚ)) p)) =
        some (totalCostFromRounded ["Field A"] ["Wheat"] ⟨1 / 2, 3 / 10, 7 / 10⟩
          (fun _ => ⟨3, 3000, 100, 1200000, 20, 8⟩)
          (fun _ => ⟨1000, 150000000, 7 / 10⟩) (fun _ => 0)) :=
  ⟨fun _ => round2_zero,
    C2_totals_from_raw ["Field A"] ["Wheat"] ⟨1 / 2, 3 / 10, 7 / 10⟩
      (fun _ => ⟨3, 3000, 100, 1200000, 20, 8⟩)
      (fun _ => ⟨1000, 150000000, 7 / 10⟩) (fun _ => 0) (fun _ => round2_zero)⟩

/-- Claim C10: on the success branch of the field-aware script, a missing
solver value (`varValue = None`) is shown as 0 in the allocation table
and in the heatmap data (`varValue or 0`), while the aggregate
`total_cost` is computed from the raw unsubstituted values — it fails
(`TypeError`, modelled `none`) when any value is missing, and when all
values are present it is the plain unrounded sum.  The two reporting
paths treat `None` differently. -/
theorem C10_none_table_vs_total (fields crops : List String) (w : Weights)
    (cp : String → CropParams) (fp : String → FieldParams)
    (vals : String × String → Option ℚ) (f0 c0 : String)
    (hf : f0 ∈ fields) (hc : c0 ∈ crops) (hnone : vals (f0, c0) = none) :
    tableEntry vals f0 c0 = 0 ∧ heatEntry vals f0 c0 = 0 ∧
      totalCostOpt fields crops w cp fp vals = none ∧
      ∀ rv : String × String → ℚ,
        totalCostOpt fields crops w cp fp (fun p => some (rv p)) =
          some ((fields.flatMap fun f => crops.map fun c =>
            hybrid_cost w (cp c) (fp f) * rv (f, c)).sum) := by
  refine ⟨?_, ?_, ?_, ?_⟩
  · rw [tableEntry, hnone]
    exact round2_zero
  · rw [heatEntry, hnone]
    rfl
  · rw [totalCostOpt]
    apply optionSum_of_mem_none
    refine List.mem_flatMap.mpr ⟨f0, hf, List.mem_map.mpr ⟨c0, hc, ?_⟩⟩
    rw [hnone]
    rfl
  · exact totalCostOpt_map_some fields crops w cp fp

/-- Claim C10, witness for `C10_none_table_vs_total` on a one-field,
one-crop run whose solver value is missing. -/
theorem C10_none_table_vs_total_witness :
    "Field A" ∈ ["Field A"] ∧ "Wheat" ∈ ["Wheat"] ∧
      (fun _ : String × String => (none : Option ℚ)) ("Field A", "Wheat") = none ∧
      (tableEntry (fun _ => none) "Field A" "Wheat" = 0 ∧
        heatEntry (fun _ => none) "Field A" "Wheat" = 0 ∧
        totalCostOpt ["Field A"] ["Wheat"] ⟨1 / 2, 3 / 10, 7 / 10⟩
          (fun _ => ⟨3, 3000, 100, 1200000, 20, 8⟩)
          (fun _ => ⟨1000, 150000000, 7 / 10⟩) (fun _ => none) = none ∧
        ∀ rv : String × String → ℚ,
          totalCostOpt ["Field A"] ["Wheat"] ⟨1 / 2, 3 / 10, 7 / 10⟩
              (fun _ => ⟨3, 3000, 100, 1200000, 20, 8⟩)
              (fun _ => ⟨1000, 150000000, 7 / 10⟩) (fun p => some (rv p)) =
            some ((["Field A"].flatMap fun f => ["Wheat"].map fun c =>
              hybrid_cost ⟨1 / 2, 3 / 10, 7 / 10⟩
                ((fun _ => (⟨3, 3000, 100, 1200000, 20, 8⟩ : CropParams)) c)
                ((fun _ => (⟨1000, 150000000, 7 / 10⟩ : FieldParams)) f) * rv (f, c)).sum)) :=
  ⟨List.mem_cons_self _ _, List.mem_cons_self _ _, rfl,
    C10_none_table_vs_total ["Field A"] ["Wheat"] ⟨1 / 2, 3 / 10, 7 / 10⟩
      (fun _ => ⟨3, 3000, 100, 1200000, 20, 8⟩)
      (fun _ => ⟨1000, 150000000, 7 / 10⟩) (fun _ => none) "Field A" "Wheat"
      (List.mem_cons_self _ _) (List.mem_cons_self _ _) rfl⟩
